import Mathlib

/-!
Shallow embedding of the cosmwasm-test contract (src/contract.rs, src/msg.rs):
a fund-forwarding agent with an owner-gated receiver address. Storage is the
singleton ContractState record; the host Api (address codec) is an explicit
parameter. Stateful entry points are modelled by explicit state passing: each
returns its result together with the storage as left behind by the call.
-/

namespace CosmwasmTest

/-- Human-readable address string (cosmwasm HumanAddr wraps a String). -/
abbrev HumanAddr := String

/-- Canonical binary address (cosmwasm CanonicalAddr wraps a byte vector),
modelled as a list of byte values. -/
abbrev CanonicalAddr := List Nat

/-- Coin from cosmwasm_std: a denomination string with a Uint128 amount,
modelled as Nat (the contract only compares amounts against zero). -/
structure Coin where
  denom : String
  amount : Nat
deriving Repr, DecidableEq

/-- The StdError variants this contract can produce: generic_err (used for the
funds validation failure), unauthorized, and not_found (Singleton load on an
empty storage); address-codec failures surface as whatever StdError the host
Api returns. -/
inductive StdError where
  | genericErr (msg : String)
  | unauthorized
  | notFound (kind : String)
deriving Repr, DecidableEq

/-- The message part of Env: caller address and attached funds. -/
structure MessageInfo where
  sender : HumanAddr
  sent_funds : List Coin
deriving Repr, DecidableEq

/-- The contract part of Env: the contract's own address. -/
structure ContractInfo where
  address : HumanAddr
deriving Repr, DecidableEq

/-- Env supplied by the host on every call. -/
structure Env where
  message : MessageInfo
  contract : ContractInfo
deriving Repr, DecidableEq

/-- The host-provided address codec (the Api trait): fallible conversion
between human-readable and canonical addresses. -/
structure Api where
  canonical_address : HumanAddr → Except StdError CanonicalAddr
  human_address : CanonicalAddr → Except StdError HumanAddr

/-- Modelled from the spec: the State record of src/state.rs (the file is not
under src/) — the single persisted record holding `owner` and `receiver`
canonical addresses. Field order follows the construction site in init. -/
structure State where
  receiver : CanonicalAddr
  owner : CanonicalAddr
deriving Repr, DecidableEq

/-- Modelled from the spec: the singleton storage of src/state.rs — at most
one ContractState record persisted under one fixed key. -/
abbrev Storage := Option State

/-- Modelled from the spec: Singleton load (config_read(&deps.storage).load()),
which fails with a not-found StdError when no record was ever persisted. -/
def Storage.load (s : Storage) : Except StdError State :=
  match s with
  | none => .error (.notFound "State")
  | some st => .ok st

/-- BankMsg::Send, the only outgoing message the contract builds. -/
inductive BankMsg where
  | Send (from_address : HumanAddr) (to_address : HumanAddr) (amount : List Coin)
deriving Repr, DecidableEq

/-- CosmosMsg restricted to the Bank variant the contract uses. -/
inductive CosmosMsg where
  | Bank (m : BankMsg)
deriving Repr, DecidableEq

/-- log(key, value) attribute from cosmwasm_std. -/
structure LogAttribute where
  key : String
  value : String
deriving Repr, DecidableEq

/-- InitResponse: outgoing messages and log attributes. -/
structure InitResponse where
  messages : List CosmosMsg
  log : List LogAttribute
deriving Repr, DecidableEq

/-- InitResponse::default(): empty messages, empty log. -/
def InitResponse.default : InitResponse := ⟨[], []⟩

/-- HandleResponse: outgoing messages, log attributes, optional data. -/
structure HandleResponse where
  messages : List CosmosMsg
  log : List LogAttribute
  data : Option (List Nat)
deriving Repr, DecidableEq

/-- HandleResponse::default(): empty messages, empty log, no data. -/
def HandleResponse.default : HandleResponse := ⟨[], [], none⟩

/-- InitMsg from src/msg.rs. -/
structure InitMsg where
  receiver : String
deriving Repr, DecidableEq

/-- HandleMsg from src/msg.rs. -/
inductive HandleMsg where
  | TokenSend
  | ResetReceiver (receiver : String)
deriving Repr, DecidableEq

/-- QueryMsg from src/msg.rs. -/
inductive QueryMsg where
  | GetReceiver
deriving Repr, DecidableEq

/-- ReceiverResponse from src/msg.rs. -/
structure ReceiverResponse where
  receiver : String
deriving Repr, DecidableEq

/-- init from src/contract.rs: canonicalize the receiver string, then the
caller, build the State record and save it as the singleton. Each `?` failure
returns before the save, leaving storage as it was. -/
def init (api : Api) (store : Storage) (env : Env) (msg : InitMsg) :
    Except StdError InitResponse × Storage :=
  match api.canonical_address msg.receiver with
  | .error e => (.error e, store)
  | .ok rcv =>
    match api.canonical_address env.message.sender with
    | .error e => (.error e, store)
    | .ok own => (.ok InitResponse.default, some { receiver := rcv, owner := own })

/-- try_tokensend from src/contract.rs: require some sent coin with denom
"uusd" and positive amount, then load state, humanize the receiver, and build
the bank-send response forwarding the entire funds list. Never writes. -/
def try_tokensend (api : Api) (store : Storage) (env : Env) :
    Except StdError HandleResponse × Storage :=
  let funds := env.message.sent_funds
  if (funds.find? (fun x => x.denom == "uusd" && decide (0 < x.amount))).isNone then
    (.error (.genericErr "You must pass some UST"), store)
  else
    match store.load with
    | .error e => (.error e, store)
    | .ok state =>
      match api.human_address state.receiver with
      | .error e => (.error e, store)
      | .ok recipient =>
        (.ok { messages := [.Bank (.Send env.contract.address recipient funds)],
               log := [⟨"action", "send"⟩, ⟨"recipient", recipient⟩],
               data := none }, store)

/-- try_reset from src/contract.rs: a Singleton update — load the state,
canonicalize the caller, fail unauthorized unless it equals the stored owner,
else save the state with the receiver replaced. The save happens only on the
Ok branch of the closure. -/
def try_reset (api : Api) (store : Storage) (env : Env) (receiver : CanonicalAddr) :
    Except StdError HandleResponse × Storage :=
  match store.load with
  | .error e => (.error e, store)
  | .ok state =>
    match api.canonical_address env.message.sender with
    | .error e => (.error e, store)
    | .ok caller =>
      if caller ≠ state.owner then (.error .unauthorized, store)
      else (.ok HandleResponse.default, some { state with receiver := receiver })

/-- handle from src/contract.rs: dispatch on the message tag; for
ResetReceiver the new receiver string is canonicalized before try_reset runs
(the `?` in the argument position). -/
def handle (api : Api) (store : Storage) (env : Env) (msg : HandleMsg) :
    Except StdError HandleResponse × Storage :=
  match msg with
  | .TokenSend => try_tokensend api store env
  | .ResetReceiver receiver =>
    match api.canonical_address receiver with
    | .error e => (.error e, store)
    | .ok c => try_reset api store env c

/-- query_receiver from src/contract.rs: load the state and humanize the
stored receiver. Takes storage immutably and returns no storage. -/
def query_receiver (api : Api) (store : Storage) :
    Except StdError ReceiverResponse :=
  match store.load with
  | .error e => .error e
  | .ok state =>
    match api.human_address state.receiver with
    | .error e => .error e
    | .ok human => .ok { receiver := human }

/-- query from src/contract.rs: dispatch on the query tag. The to_binary JSON
serialization at the boundary is out of scope per the spec; the response
record itself is returned. -/
def query (api : Api) (store : Storage) (msg : QueryMsg) :
    Except StdError ReceiverResponse :=
  match msg with
  | .GetReceiver => query_receiver api store

/-- A host-level call: one of the three entry points with its arguments. -/
inductive Op where
  | initOp (env : Env) (msg : InitMsg)
  | handleOp (env : Env) (msg : HandleMsg)
  | queryOp (msg : QueryMsg)

/-- The result value of a host-level call, tagged by entry point. -/
inductive CallResult where
  | initRes (r : InitResponse)
  | handleRes (r : HandleResponse)
  | queryRes (r : ReceiverResponse)
deriving Repr, DecidableEq

/-- One host-level call against the stored state: dispatch to the entry point
and thread the storage (query takes storage immutably, so it passes storage
through unchanged). -/
def step (api : Api) (store : Storage) : Op → Except StdError CallResult × Storage
  | .initOp env msg =>
    let r := init api store env msg
    (r.1.map .initRes, r.2)
  | .handleOp env msg =>
    let r := handle api store env msg
    (r.1.map .handleRes, r.2)
  | .queryOp msg => ((query api store msg).map .queryRes, store)

/-- The storage left behind by a sequence of host-level calls. -/
def execSeq (api : Api) (store : Storage) (ops : List Op) : Storage :=
  ops.foldl (fun s op => (step api s op).2) store

/-- The owner field of the stored record, when one exists. -/
def ownerOf (s : Storage) : Option CanonicalAddr := s.map State.owner

/-- Whether a host-level call is an instantiation. -/
def Op.isInit : Op → Bool
  | .initOp _ _ => true
  | _ => false

/-- Whether a host-level call is a TokenSend handle call or a query: the calls
that may intervene between two GetReceiver queries without affecting them. -/
def Op.mayIntervene : Op → Bool
  | .handleOp _ .TokenSend => true
  | .queryOp _ => true
  | _ => false

/-- A concrete address codec for evaluating the development on closed inputs:
the canonical form of a nonempty string is its list of character codes; the
empty string fails to canonicalize. -/
def testApi : Api where
  canonical_address := fun s =>
    if s.isEmpty then .error (.genericErr "empty address") else .ok (s.toList.map Char.toNat)
  human_address := fun c => .ok (String.mk (c.map Char.ofNat))

/-- Canonical form of "alice" under testApi. -/
def canonAlice : CanonicalAddr := [97, 108, 105, 99, 101]

/-- Canonical form of "bob" under testApi. -/
def canonBob : CanonicalAddr := [98, 111, 98]

/-- Canonical form of "carol" under testApi. -/
def canonCarol : CanonicalAddr := [99, 97, 114, 111, 108]

/-- A stored record with receiver "bob" and owner "alice" (canonical forms). -/
def stBA : State := ⟨canonBob, canonAlice⟩

/-- A call by alice with no attached funds. -/
def envAlice : Env := ⟨⟨"alice", []⟩, ⟨"cosmos2contract"⟩⟩

/-- A call by mallory with no attached funds. -/
def envMallory : Env := ⟨⟨"mallory", []⟩, ⟨"cosmos2contract"⟩⟩

/-- A call by anyone attaching only a non-uusd coin. -/
def envTokenOnly : Env := ⟨⟨"anyone", [⟨"token", 2⟩]⟩, ⟨"cosmos2contract"⟩⟩

/-- A call by anyone attaching 100 uusd. -/
def envSendUusd : Env := ⟨⟨"anyone", [⟨"uusd", 100⟩]⟩, ⟨"cosmos2contract"⟩⟩

/-- C1: for every stored ContractState and every ResetReceiver call whose
receiver string and caller both canonicalize, a caller whose canonical form
differs from the stored owner gets an Unauthorized error with storage
untouched, and a caller equal to the stored owner gets the empty default
response (no messages, no logs) with the stored receiver replaced by the
canonical form of the new receiver string and the owner unchanged. -/
theorem reset_owner_gate (api : Api) (store : Storage) (env : Env)
    (rstr : String) (rcv : CanonicalAddr) (st : State) (c : CanonicalAddr)
    (hs : store = some st)
    (hr : api.canonical_address rstr = .ok rcv)
    (hc : api.canonical_address env.message.sender = .ok c) :
    (c ≠ st.owner →
      handle api store env (.ResetReceiver rstr) = (.error .unauthorized, store)) ∧
    (c = st.owner →
      handle api store env (.ResetReceiver rstr) =
        (.ok HandleResponse.default, some { receiver := rcv, owner := st.owner }) ∧
      HandleResponse.default.messages = [] ∧ HandleResponse.default.log = []) := by
  subst hs
  constructor
  · intro hne
    simp [handle, try_reset, Storage.load, hr, hc, hne]
  · intro heq
    subst heq
    exact ⟨by simp [handle, try_reset, Storage.load, hr, hc], rfl, rfl⟩

/-- Closed instance of C1: both branches evaluated at concrete inputs under
the test codec. -/
theorem reset_owner_gate_witness :
    handle testApi (some stBA) envMallory (.ResetReceiver "carol") =
      (.error .unauthorized, some stBA) ∧
    handle testApi (some stBA) envAlice (.ResetReceiver "carol") =
      (.ok HandleResponse.default, some ⟨canonCarol, canonAlice⟩) := by
  constructor
  · exact (reset_owner_gate testApi (some stBA) envMallory "carol" canonCarol stBA
      [109, 97, 108, 108, 111, 114, 121] rfl rfl rfl).1 (by decide)
  · exact ((reset_owner_gate testApi (some stBA) envAlice "carol" canonCarol stBA
      canonAlice rfl rfl rfl).2 rfl).1

/-- C2: a TokenSend call with at least one positive uusd coin attached, on a
stored state whose receiver humanizes, succeeds and emits exactly one bank
transfer from the contract's own address to the human receiver carrying the
entire attached funds list, plus the two log entries action=send and
recipient=receiver; storage is unchanged. -/
theorem tokensend_forwards_funds (api : Api) (store : Storage) (env : Env)
    (st : State) (recipient : HumanAddr)
    (hfunds : ∃ c ∈ env.message.sent_funds, c.denom = "uusd" ∧ 0 < c.amount)
    (hs : store = some st)
    (hh : api.human_address st.receiver = .ok recipient) :
    handle api store env .TokenSend =
      (.ok { messages := [.Bank (.Send env.contract.address recipient env.message.sent_funds)],
             log := [⟨"action", "send"⟩, ⟨"recipient", recipient⟩],
             data := none }, store) := by
  subst hs
  have hsome : (env.message.sent_funds.find?
      (fun x => x.denom == "uusd" && decide (0 < x.amount))).isSome := by
    rw [List.find?_isSome]
    obtain ⟨c, hc, hd, ha⟩ := hfunds
    exact ⟨c, hc, by simp [hd, ha]⟩
  obtain ⟨v, hv⟩ := Option.isSome_iff_exists.mp hsome
  simp [handle, try_tokensend, hv, Storage.load, hh]

/-- Closed instance of C2 at a concrete call under the test codec. -/
theorem tokensend_forwards_funds_witness :
    handle testApi (some stBA) envSendUusd .TokenSend =
      (.ok { messages := [.Bank (.Send "cosmos2contract" "bob" [⟨"uusd", 100⟩])],
             log := [⟨"action", "send"⟩, ⟨"recipient", "bob"⟩], data := none },
       some stBA) :=
  tokensend_forwards_funds testApi (some stBA) envSendUusd stBA "bob"
    ⟨⟨"uusd", 100⟩, by decide, rfl, by decide⟩ rfl rfl

/-- C3: a TokenSend call with no attached coin of denomination uusd and
positive amount fails with the generic validation error, and the storage it
leaves behind is the storage it started from (no transfer appears in an error
result). -/
theorem tokensend_no_qualifying_funds (api : Api) (store : Storage) (env : Env)
    (h : ∀ c ∈ env.message.sent_funds, ¬(c.denom = "uusd" ∧ 0 < c.amount)) :
    handle api store env .TokenSend =
      (.error (.genericErr "You must pass some UST"), store) := by
  have hfind : env.message.sent_funds.find?
      (fun x => x.denom == "uusd" && decide (0 < x.amount)) = none := by
    rw [List.find?_eq_none]
    intro x hx
    have hnx := h x hx
    simp only [Bool.and_eq_true, beq_iff_eq, decide_eq_true_eq]
    tauto
  simp [handle, try_tokensend, hfind]

/-- Closed instance of C3: funds [(token, 2)] fail validation. -/
theorem tokensend_no_qualifying_funds_witness :
    handle testApi (some stBA) envTokenOnly .TokenSend =
      (.error (.genericErr "You must pass some UST"), some stBA) :=
  tokensend_no_qualifying_funds testApi (some stBA) envTokenOnly (by decide)

/-- try_tokensend never writes: the storage it returns is its input. -/
theorem try_tokensend_store (api : Api) (store : Storage) (env : Env) :
    (try_tokensend api store env).2 = store := by
  unfold try_tokensend
  dsimp only
  split
  · rfl
  · split
    · rfl
    · split <;> rfl

/-- An init call that fails leaves storage as it was: both failure points
precede the save. -/
theorem init_error_store (api : Api) (store : Storage) (env : Env) (msg : InitMsg)
    (e : StdError) (h : (init api store env msg).1 = .error e) :
    (init api store env msg).2 = store := by
  unfold init at h ⊢
  cases h1 : api.canonical_address msg.receiver with
  | error e1 => simp [h1]
  | ok rcv =>
    cases h2 : api.canonical_address env.message.sender with
    | error e2 => simp [h1, h2]
    | ok own => simp [h1, h2] at h

/-- A try_reset call that fails leaves storage as it was: the update closure
saves only on its Ok branch. -/
theorem try_reset_error_store (api : Api) (store : Storage) (env : Env)
    (rcv : CanonicalAddr) (e : StdError)
    (h : (try_reset api store env rcv).1 = .error e) :
    (try_reset api store env rcv).2 = store := by
  unfold try_reset at h ⊢
  cases hl : store.load with
  | error e1 => simp [hl]
  | ok st =>
    cases hc : api.canonical_address env.message.sender with
    | error e2 => simp [hl, hc]
    | ok c =>
      by_cases hne : c ≠ st.owner
      · simp [hl, hc, hne]
      · simp [hl, hc, hne] at h

/-- A handle call that fails leaves storage as it was. -/
theorem handle_error_store (api : Api) (store : Storage) (env : Env) (msg : HandleMsg)
    (e : StdError) (h : (handle api store env msg).1 = .error e) :
    (handle api store env msg).2 = store := by
  cases msg with
  | TokenSend => exact try_tokensend_store api store env
  | ResetReceiver r =>
    unfold handle at h ⊢
    cases hc : api.canonical_address r with
    | error e1 => simp [hc]
    | ok c =>
      simp only [hc] at h ⊢
      exact try_reset_error_store api store env c e h

/-- C4: for every entry point (init, TokenSend, ResetReceiver, GetReceiver
query) and every starting storage, a call that returns an error leaves the
stored ContractState identical to what it was before the call. -/
theorem errors_commit_nothing (api : Api) (store : Storage) (op : Op) (e : StdError)
    (h : (step api store op).1 = .error e) : (step api store op).2 = store := by
  cases op with
  | initOp env msg =>
    simp only [step] at h ⊢
    cases h1 : (init api store env msg).1 with
    | ok v => rw [h1] at h; simp [Except.map] at h
    | error e1 => exact init_error_store api store env msg e1 h1
  | handleOp env msg =>
    simp only [step] at h ⊢
    cases h1 : (handle api store env msg).1 with
    | ok v => rw [h1] at h; simp [Except.map] at h
    | error e1 => exact handle_error_store api store env msg e1 h1
  | queryOp msg => rfl

/-- Closed instance of C4: a failing TokenSend on empty storage commits
nothing. -/
theorem errors_commit_nothing_witness :
    (step testApi none (.handleOp envTokenOnly .TokenSend)).2 = none :=
  errors_commit_nothing testApi none (.handleOp envTokenOnly .TokenSend)
    (.genericErr "You must pass some UST") (by rfl)

/-- C6: when both the receiver string and the caller canonicalize, init
persists exactly the record with owner = canonical(caller) and
receiver = canonical(receiver) and succeeds with the empty default response;
when the receiver string fails to canonicalize, init returns that error and
persists nothing. -/
theorem init_establishes_state (api : Api) (store : Storage) (env : Env) (msg : InitMsg) :
    (∀ rcv own, api.canonical_address msg.receiver = .ok rcv →
      api.canonical_address env.message.sender = .ok own →
      init api store env msg = (.ok InitResponse.default, some ⟨rcv, own⟩) ∧
      InitResponse.default.messages = [] ∧ InitResponse.default.log = []) ∧
    (∀ e, api.canonical_address msg.receiver = .error e →
      init api store env msg = (.error e, store)) := by
  constructor
  · intro rcv own h1 h2
    exact ⟨by simp [init, h1, h2], rfl, rfl⟩
  · intro e h1
    simp [init, h1]

/-- Closed instance of C6: a successful init and a failing one under the test
codec, whose empty string does not canonicalize. -/
theorem init_establishes_state_witness :
    init testApi none envAlice ⟨"bob"⟩ =
      (.ok InitResponse.default, some ⟨canonBob, canonAlice⟩) ∧
    init testApi (some stBA) envAlice ⟨""⟩ =
      (.error (.genericErr "empty address"), some stBA) :=
  ⟨((init_establishes_state testApi none envAlice ⟨"bob"⟩).1 canonBob canonAlice rfl rfl).1,
   (init_establishes_state testApi (some stBA) envAlice ⟨""⟩).2
     (.genericErr "empty address") rfl⟩

/-- C9: init has no re-init guard: with a record already stored, a successful
init unconditionally overwrites it with the new canonical receiver and owner,
whatever the old record held. -/
theorem init_overwrites (api : Api) (store : Storage) (env : Env) (msg : InitMsg)
    (old : State) (rcv own : CanonicalAddr)
    (hs : store = some old)
    (h1 : api.canonical_address msg.receiver = .ok rcv)
    (h2 : api.canonical_address env.message.sender = .ok own) :
    (init api store env msg).2 = some ⟨rcv, own⟩ := by
  subst hs
  simp [init, h1, h2]

/-- Closed instance of C9: a second init by a different caller replaces both
fields of the stored record. -/
theorem init_overwrites_witness :
    (init testApi (some stBA) envMallory ⟨"carol"⟩).2 =
      some ⟨canonCarol, [109, 97, 108, 108, 111, 114, 121]⟩ :=
  init_overwrites testApi (some stBA) envMallory ⟨"carol"⟩ stBA canonCarol
    [109, 97, 108, 108, 111, 114, 121] rfl rfl rfl

/-- try_reset never changes the owner field of storage: its only write keeps
the loaded owner and replaces the receiver. -/
theorem try_reset_preserves_owner (api : Api) (store : Storage) (env : Env)
    (rcv : CanonicalAddr) :
    ownerOf (try_reset api store env rcv).2 = ownerOf store := by
  unfold try_reset
  cases store with
  | none => rfl
  | some st =>
    simp only [Storage.load]
    cases hc : api.canonical_address env.message.sender with
    | error e => rfl
    | ok c =>
      by_cases hne : c ≠ st.owner
      · simp [hne]
      · simp [hne, ownerOf]

/-- A non-init host call preserves the owner field of storage. -/
theorem step_preserves_owner (api : Api) (store : Storage) (op : Op)
    (h : op.isInit = false) : ownerOf (step api store op).2 = ownerOf store := by
  cases op with
  | initOp env msg => simp [Op.isInit] at h
  | handleOp env msg =>
    cases msg with
    | TokenSend =>
      show ownerOf (try_tokensend api store env).2 = ownerOf store
      rw [try_tokensend_store]
    | ResetReceiver r =>
      show ownerOf (handle api store env (.ResetReceiver r)).2 = ownerOf store
      unfold handle
      dsimp only
      cases hc : api.canonical_address r with
      | error e => simp [hc]
      | ok c =>
        simp only [hc]
        exact try_reset_preserves_owner api store env c
  | queryOp msg => rfl

/-- A sequence of non-init host calls preserves the owner field of storage. -/
theorem execSeq_preserves_owner (api : Api) (ops : List Op) :
    ∀ store : Storage, (∀ op ∈ ops, op.isInit = false) →
      ownerOf (execSeq api store ops) = ownerOf store := by
  induction ops with
  | nil => intro store _; rfl
  | cons op rest ih =>
    intro store h
    calc ownerOf (execSeq api store (op :: rest))
        = ownerOf (execSeq api (step api store op).2 rest) := rfl
      _ = ownerOf (step api store op).2 :=
          ih _ (fun o ho => h o (List.mem_cons_of_mem _ ho))
      _ = ownerOf store := step_preserves_owner api store op (h op (List.mem_cons_self _ _))

/-- C5: after a successful init, no sequence of handle and query calls ever
changes the stored owner: every reachable storage still holds the owner
canonicalized from the init caller. -/
theorem owner_immutable_after_init (api : Api) (store : Storage) (env : Env)
    (msg : InitMsg) (rcv own : CanonicalAddr) (ops : List Op)
    (h1 : api.canonical_address msg.receiver = .ok rcv)
    (h2 : api.canonical_address env.message.sender = .ok own)
    (hops : ∀ op ∈ ops, op.isInit = false) :
    ownerOf (execSeq api (init api store env msg).2 ops) = some own := by
  rw [execSeq_preserves_owner api ops _ hops]
  simp [init, h1, h2, ownerOf]

/-- Closed instance of C5: a reset, a query and a send after init leave the
owner as established at init. -/
theorem owner_immutable_after_init_witness :
    ownerOf (execSeq testApi (init testApi none envAlice ⟨"bob"⟩).2
      [.handleOp envAlice (.ResetReceiver "carol"), .queryOp .GetReceiver,
       .handleOp envSendUusd .TokenSend]) = some canonAlice :=
  owner_immutable_after_init testApi none envAlice ⟨"bob"⟩ canonBob canonAlice
    [.handleOp envAlice (.ResetReceiver "carol"), .queryOp .GetReceiver,
     .handleOp envSendUusd .TokenSend] rfl rfl (by decide)

/-- C7: with a lossless round trip at the stored value — canonical(R) = r and
human(r) = R — and a caller that canonicalizes, Init(receiver = R) followed
immediately by a GetReceiver query returns exactly R. -/
theorem init_then_query_roundtrip (api : Api) (store : Storage) (env : Env)
    (msg : InitMsg) (rcv own : CanonicalAddr)
    (h1 : api.canonical_address msg.receiver = .ok rcv)
    (hrt : api.human_address rcv = .ok msg.receiver)
    (h2 : api.canonical_address env.message.sender = .ok own) :
    query api (init api store env msg).2 .GetReceiver = .ok ⟨msg.receiver⟩ := by
  simp [init, h1, h2, query, query_receiver, Storage.load, hrt]

/-- Closed instance of C7: init with receiver "bob" then query returns
"bob" under the test codec, which round-trips on it. -/
theorem init_then_query_roundtrip_witness :
    query testApi (init testApi none envAlice ⟨"bob"⟩).2 .GetReceiver = .ok ⟨"bob"⟩ :=
  init_then_query_roundtrip testApi none envAlice ⟨"bob"⟩ canonBob canonAlice rfl rfl rfl

/-- A TokenSend handle call or a query passes the storage through
unchanged. -/
theorem step_mayIntervene_store (api : Api) (store : Storage) (op : Op)
    (h : op.mayIntervene = true) : (step api store op).2 = store := by
  cases op with
  | initOp env msg => simp [Op.mayIntervene] at h
  | handleOp env msg =>
    cases msg with
    | TokenSend => exact try_tokensend_store api store env
    | ResetReceiver r => simp [Op.mayIntervene] at h
  | queryOp msg => rfl

/-- A sequence of TokenSend handle calls and queries passes the storage
through unchanged. -/
theorem execSeq_mayIntervene_store (api : Api) (ops : List Op) :
    ∀ store : Storage, (∀ op ∈ ops, op.mayIntervene = true) →
      execSeq api store ops = store := by
  induction ops with
  | nil => intro store _; rfl
  | cons op rest ih =>
    intro store h
    calc execSeq api store (op :: rest)
        = execSeq api (step api store op).2 rest := rfl
      _ = (step api store op).2 := ih _ (fun o ho => h o (List.mem_cons_of_mem _ ho))
      _ = store := step_mayIntervene_store api store op (h op (List.mem_cons_self _ _))

/-- C8: the GetReceiver query is read-only — a query step leaves storage
exactly as it was — and deterministic: across any run of intervening
TokenSend calls and queries (no ResetReceiver), a repeated GetReceiver query
returns the identical result. -/
theorem query_readonly_deterministic (api : Api) (store : Storage) :
    (∀ msg, (step api store (.queryOp msg)).2 = store) ∧
    (∀ ops, (∀ op ∈ ops, op.mayIntervene = true) →
      query api (execSeq api store ops) .GetReceiver = query api store .GetReceiver) := by
  refine ⟨fun _ => rfl, fun ops hops => ?_⟩
  rw [execSeq_mayIntervene_store api ops store hops]

/-- Closed instance of C8: a query step keeps storage, and a TokenSend plus a
query between two GetReceiver queries leave the result identical. -/
theorem query_readonly_deterministic_witness :
    (step testApi (some stBA) (.queryOp .GetReceiver)).2 = some stBA ∧
    query testApi (execSeq testApi (some stBA)
        [.handleOp envSendUusd .TokenSend, .queryOp .GetReceiver]) .GetReceiver =
      query testApi (some stBA) .GetReceiver :=
  ⟨(query_readonly_deterministic testApi (some stBA)).1 .GetReceiver,
   (query_readonly_deterministic testApi (some stBA)).2
     [.handleOp envSendUusd .TokenSend, .queryOp .GetReceiver] (by decide)⟩

/-- C10: the outcome of a ResetReceiver call does not depend on the attached
funds: replacing the funds list of an otherwise identical call gives the
identical result and the identical resulting storage — funds are neither
validated, forwarded, nor recorded. -/
theorem reset_funds_independent (api : Api) (store : Storage) (env : Env)
    (funds : List Coin) (rstr : String) :
    handle api store ⟨⟨env.message.sender, funds⟩, env.contract⟩ (.ResetReceiver rstr) =
      handle api store env (.ResetReceiver rstr) := rfl

end CosmwasmTest
